import Mathlib

/-!
Shallow embedding of `src/api/ring-camera.ts` (the `RingCamera` class and its
helpers) and proofs about it.  JavaScript numbers that matter here are modelled
as `ℚ` (battery levels) and `Int`/`Nat` (epoch-millisecond timestamps, counters);
asynchronous code is modelled by explicit state passing; a fallible transport is
a function `Request → Except String α`.
-/

namespace RingCameraModel

/-! ## Raw data model (`CameraData` fields used by the embedded code) -/

/-- The raw `battery_life` field of a camera record: a JSON number, a string, or
absent (`undefined`). -/
inductive BatteryLife where
  | num (value : ℚ)
  | str (text : String)
  | undef
deriving DecidableEq

/-- The `siren_status` object; only `seconds_remaining` is used by the code. -/
structure SirenStatus where
  seconds_remaining : Nat
deriving DecidableEq

/-- The fields of a `CameraData` record that the embedded code reads or writes. -/
structure CameraData where
  id : Nat
  kind : String
  description : String
  battery_life : BatteryLife
  led_status : Option String
  siren_status : Option SirenStatus
deriving DecidableEq

/-! ## JavaScript numeric parsing

`getBatteryLevel` calls `Number.parseFloat`, a JS builtin not in the source
tree.  `jsParseFloat` models it for finite decimal literals: skip leading
whitespace, optional sign, digits with optional fraction and exponent, trailing
garbage ignored; `none` models `NaN` (no parsable digit found).  The JS
`Infinity` literal, unrepresentable in `ℚ`, is out of the modelled domain. -/

/-- Value of a list of decimal digit characters, most significant first. -/
def digitsVal (ds : List Char) : Nat :=
  ds.foldl (fun acc c => acc * 10 + (c.toNat - Char.toNat '0')) 0

/-- Exponent suffix after a leading `e`/`E`: optional sign then digits; an
unparsable exponent is ignored (contributes 0), as in JS. -/
def parseExp (cs : List Char) : Int :=
  let signed : Int × List Char :=
    match cs with
    | '-' :: rest => (-1, rest)
    | '+' :: rest => (1, rest)
    | _ => (1, cs)
  let ds := signed.2.takeWhile Char.isDigit
  if ds.isEmpty then 0 else signed.1 * (digitsVal ds : Int)

/-- Model of `Number.parseFloat` on finite decimal literals; `none` is `NaN`. -/
def jsParseFloat (s : String) : Option ℚ :=
  let cs := s.toList.dropWhile (fun c => c == ' ' || c == '\t' || c == '\n' || c == '\r')
  let signed : ℚ × List Char :=
    match cs with
    | '-' :: rest => (-1, rest)
    | '+' :: rest => (1, rest)
    | _ => (1, cs)
  let intPart := signed.2.takeWhile Char.isDigit
  let afterInt := signed.2.dropWhile Char.isDigit
  let fracSplit : List Char × List Char :=
    match afterInt with
    | '.' :: rest => (rest.takeWhile Char.isDigit, rest.dropWhile Char.isDigit)
    | _ => ([], afterInt)
  let fracPart := fracSplit.1
  if intPart.isEmpty && fracPart.isEmpty then none
  else
    let mantissa : ℚ :=
      signed.1 * ((digitsVal intPart : ℚ) + (digitsVal fracPart : ℚ) / (10 : ℚ) ^ fracPart.length)
    let exponent : Int :=
      match fracSplit.2 with
      | 'e' :: rest => parseExp rest
      | 'E' :: rest => parseExp rest
      | _ => 0
    some (mantissa * (10 : ℚ) ^ exponent)

/-- Embeds `getBatteryLevel` (ring-camera.ts lines 24-35): a numeric field is
used directly, anything else goes through `Number.parseFloat` (JS coerces the
absent field to the string "undefined" first), and a `NaN` result becomes
`null` (here `none`). -/
def getBatteryLevel (data : CameraData) : Option ℚ :=
  match data.battery_life with
  | .num v => some v
  | .str s => jsParseFloat s
  | .undef => jsParseFloat "undefined"

/-- True when the raw battery field is a number. -/
def isNumberValue : BatteryLife → Bool
  | .num _ => true
  | _ => false

/-- True when the raw battery field is text that parses to a number. -/
def numericParseableText : BatteryLife → Bool
  | .str s => (jsParseFloat s).isSome
  | _ => false

/-! ## Requests and the camera state -/

inductive HttpMethod where
  | GET
  | PUT
  | POST
deriving DecidableEq

/-- The shape of a transport request the embedded code issues: method and url. -/
structure Request where
  method : HttpMethod
  url : String
deriving DecidableEq

/-- Modelled from the spec: `clientApi` lives in `rest-client.ts`, which is not
in the source tree; per the spec (section 6) URL builders are pure string
templates keyed by ids, so it is a fixed path template. -/
def clientApi (path : String) : String :=
  "clients_api/" ++ path

/-- Embeds `doorbotUrl` (line 94): path template under the device id. -/
def doorbotUrl (id : Nat) (path : String) : String :=
  clientApi ("doorbots/" ++ toString id ++ "/" ++ path)

/-- The mutable part of a `RingCamera`: its id and capability flags, fixed at
construction, and the current `CameraData` held by the `onData` subject. -/
structure RingCamera where
  id : Nat
  hasLight : Bool
  hasSiren : Bool
  data : CameraData
deriving DecidableEq

/-- Embeds the constructor-time field initialisers (lines 38-44): capability
flags come from presence of the optional fields on the initial record. -/
def RingCamera.create (initialData : CameraData) : RingCamera :=
  { id := initialData.id
    hasLight := initialData.led_status.isSome
    hasSiren := initialData.siren_status.isSome
    data := initialData }

/-- Embeds `updateData` (lines 70-72): pushes a whole replacement record. -/
def RingCamera.updateData (cam : RingCamera) (update : CameraData) : RingCamera :=
  { cam with data := update }

/-! ## Command facade: `setLight` and `setSiren` -/

/-- Everything observable about one command invocation: the returned/thrown
value, the camera state afterwards, and the transport calls issued. -/
structure CommandOutcome where
  result : Except String Bool
  camera : RingCamera
  transportCalls : List Request

/-- Embeds `setLight` (lines 98-113): capability gate, transport PUT, then the
optimistic record update; a transport rejection propagates before the update. -/
def setLight (cam : RingCamera) (turnOn : Bool) (transport : Request → Except String Unit) :
    CommandOutcome :=
  if !cam.hasLight then
    { result := .ok false, camera := cam, transportCalls := [] }
  else
    let state := if turnOn then "on" else "off"
    let req : Request := { method := .PUT, url := doorbotUrl cam.id ("floodlight_light_" ++ state) }
    match transport req with
    | .error e => { result := .error e, camera := cam, transportCalls := [req] }
    | .ok _ =>
        { result := .ok true
          camera := cam.updateData { cam.data with led_status := some state }
          transportCalls := [req] }

/-- Embeds `setSiren` (lines 115-130): same shape as `setLight`, with the
optimistic update writing a nominal 1-second siren countdown. -/
def setSiren (cam : RingCamera) (turnOn : Bool) (transport : Request → Except String Unit) :
    CommandOutcome :=
  if !cam.hasSiren then
    { result := .ok false, camera := cam, transportCalls := [] }
  else
    let state := if turnOn then "on" else "off"
    let req : Request := { method := .PUT, url := doorbotUrl cam.id ("siren_" ++ state) }
    match transport req with
    | .error e => { result := .error e, camera := cam, transportCalls := [req] }
    | .ok _ =>
        { result := .ok true
          camera := cam.updateData { cam.data with siren_status := some { seconds_remaining := 1 } }
          transportCalls := [req] }

/-! ## Snapshot freshness state machine -/

/-- One freshness check result (`updateTimestamp`, lines 187-204): the device
capture timestamp and the response arrival timestamp, epoch milliseconds. -/
structure TimestampSample where
  timestamp : Int
  responseTimestamp : Int
deriving DecidableEq

/-- Embeds `Math.abs(responseTimestamp - timestamp)` (line 222). -/
def timestampAge (sample : TimestampSample) : Nat :=
  (sample.responseTimestamp - sample.timestamp).natAbs

/-- Embeds the constant on line 22. -/
def snapshotTimestampGracePeriod : Nat := 10000

/-- Embeds the `snapshotRefreshDelay` selection (lines 210-211). -/
def snapshotRefreshDelay (hasSlowSnapshotRefresh allowStale : Bool) : Nat :=
  if hasSlowSnapshotRefresh && !allowStale then 2000 else 500

/-- Embeds the `maxSnapshotRefreshSeconds` selection (lines 212-216). -/
def maxSnapshotRefreshSeconds (hasSlowSnapshotRefresh allowStale : Bool) : Nat :=
  if hasSlowSnapshotRefresh && !allowStale then 600
  else if hasSlowSnapshotRefresh then 5
  else 30

/-- Embeds the attempt budget computation (lines 217-218). -/
def maxSnapshotRefreshAttempts (hasSlowSnapshotRefresh allowStale : Bool) : Nat :=
  maxSnapshotRefreshSeconds hasSlowSnapshotRefresh allowStale * 1000 /
    snapshotRefreshDelay hasSlowSnapshotRefresh allowStale

/-- The retry loop body (lines 220-229), instrumented with the attempt count:
attempt `i` samples `source i`; a sample within the grace period stops the loop
after `i + 1` attempts; running out of budget yields `none`. -/
def refreshAttempts (source : Nat → TimestampSample) (i : Nat) : Nat → Option Nat
  | 0 => none
  | fuel + 1 =>
    if timestampAge (source i) < snapshotTimestampGracePeriod then some (i + 1)
    else refreshAttempts source (i + 1) fuel

/-- Embeds `refreshSnapshot` (lines 209-234): `.ok k` is a FRESH exit after `k`
attempts, `.error n` the thrown exhaustion error carrying the attempt budget
`n` (line 232 interpolates `maxSnapshotRefreshAttempts` into the message). -/
def refreshSnapshot (hasSlowSnapshotRefresh allowStale : Bool)
    (source : Nat → TimestampSample) : Except Nat Nat :=
  match refreshAttempts source 0 (maxSnapshotRefreshAttempts hasSlowSnapshotRefresh allowStale) with
  | some attemptsUsed => .ok attemptsUsed
  | none => .error (maxSnapshotRefreshAttempts hasSlowSnapshotRefresh allowStale)

/-! ## Session coalescing and the image fetch (`getSnapshot`) -/

/-- Embeds the synchronous prefix of `getSnapshot` (lines 237-238): with an
in-flight session in the slot the caller awaits it; with an empty slot a fresh
session (identified by `freshId`) is started and stored.  Returns the session
awaited, the slot afterwards, and whether a new retry loop was started. -/
def acquireRefreshSession (slot : Option Nat) (freshId : Nat) : Nat × Option Nat × Bool :=
  match slot with
  | some s => (s, some s, false)
  | none => (freshId, some freshId, true)

/-- Embeds line 246: a caller resuming after the awaited session settles resets
`refreshSnapshotInProgress` to `undefined`. -/
def clearRefreshSession (_slot : Option Nat) : Option Nat :=
  none

/-- The possible resolutions of a refresh session awaited by `getSnapshot`. -/
inductive SessionOutcome where
  | fresh (attemptsUsed : Nat)
  | exhausted (attempts : Nat)
  | transportError (message : String)
deriving DecidableEq

/-- The error, if any, a session outcome rejects with: exhaustion throws the
line 231-233 message, a transport failure inside the session rethrows. -/
def sessionError : SessionOutcome → Option String
  | .fresh _ => none
  | .exhausted n => some ("Snapshot failed to refresh after " ++ toString n ++ " attempts")
  | .transportError m => some m

/-- Embeds the image request of lines 248-251. -/
def snapshotImageRequest (id : Nat) : Request :=
  { method := .GET, url := clientApi ("snapshots/image/" ++ toString id) }

/-- Everything observable about the tail of one `getSnapshot` call: errors
passed to `logError`, transport calls issued, and the returned value (the image
fetch response, bytes as `List Nat`). -/
structure SnapshotFetch where
  loggedErrors : List String
  requests : List Request
  result : Except String (List Nat)

/-- Embeds lines 240-251 of `getSnapshot`: the awaited session settles with
`outcome`; a rejection is caught and logged (never rethrown), then the image
fetch is issued unconditionally and its response returned. -/
def getSnapshotFinish (id : Nat) (outcome : SessionOutcome)
    (transport : Request → Except String (List Nat)) : SnapshotFetch :=
  match sessionError outcome with
  | some e =>
      { loggedErrors := [e]
        requests := [snapshotImageRequest id]
        result := transport (snapshotImageRequest id) }
  | none =>
      { loggedErrors := []
        requests := [snapshotImageRequest id]
        result := transport (snapshotImageRequest id) }

/-! ## Active-ding lifecycle and derived channels -/

inductive DingKind where
  | ding
  | motion
  | on_demand
deriving DecidableEq

/-- An active ding; `id` models JS object identity (distinct received events
are distinct objects, however equal their content). -/
structure ActiveDing where
  id : Nat
  kind : DingKind
  motion : Bool
deriving DecidableEq

/-- The camera state touched by `processActiveDing`: a clock (milliseconds),
the `onActiveDings` current value, the `onNewDing` emission log, and the
pending `setTimeout` callbacks as (fire time, event identity) pairs. -/
structure DingState where
  now : Nat
  activeDings : List ActiveDing
  newDingLog : List ActiveDing
  timers : List (Nat × Nat)
deriving DecidableEq

/-- Embeds `processActiveDing` (lines 160-171): emit the new ding, append it to
the active set, and schedule a removal of exactly that event 65 seconds out. -/
def processActiveDing (s : DingState) (ding : ActiveDing) : DingState :=
  { s with
    activeDings := s.activeDings ++ [ding]
    newDingLog := s.newDingLog ++ [ding]
    timers := s.timers ++ [(s.now + 65 * 1000, ding.id)] }

/-- Embeds the `setTimeout` callback (lines 166-170): re-read the active set
and excise, by identity, the event the timer was scheduled for. -/
def fireDingTimer (s : DingState) (dingId : Nat) : DingState :=
  { s with activeDings := s.activeDings.filter (fun oldDing => oldDing.id != dingId) }

/-- Embeds the predicate inside `onMotionDetected` (line 54):
`dings.some(ding => ding.motion || ding.kind === 'motion')`. -/
def motionFromDings (dings : List ActiveDing) : Bool :=
  dings.any (fun ding => ding.motion || ding.kind == DingKind.motion)

/-- One step of `distinctUntilChanged` over an explicit stream history: state is
(last emitted value, emissions so far); a value equal to the last emitted one is
suppressed. -/
def distinctUntilChangedStep {α : Type} [DecidableEq α] (state : Option α × List α) (v : α) :
    Option α × List α :=
  if state.1 = some v then state else (some v, state.2 ++ [v])

/-- Runs `distinctUntilChanged` over a whole upstream history, yielding the
replay-one value (last emitted) and the emission list. -/
def distinctUntilChangedRun {α : Type} [DecidableEq α] (values : List α) :
    Option α × List α :=
  values.foldl distinctUntilChangedStep (none, [])

/-- Embeds the `onMotionDetected` pipeline (lines 53-58) applied to a history
of active-set snapshots: map through `motionFromDings`, deduplicate consecutive
values, with `publishReplay(1)` holding the last emission for late subscribers. -/
def motionPipeline (snapshots : List (List ActiveDing)) : Option Bool × List Bool :=
  distinctUntilChangedRun (snapshots.map motionFromDings)

/-- Embeds the `onBatteryLevel` pipeline (lines 59-62) applied to the `onData`
history (the seed record followed by the `updateData` arguments): map through
`getBatteryLevel`, deduplicate consecutive equal values. -/
def batteryPipeline (initial : CameraData) (updates : List CameraData) :
    Option (Option ℚ) × List (Option ℚ) :=
  distinctUntilChangedRun ((initial :: updates).map getBatteryLevel)

/-! ## Helper lemmas -/

lemma jsParseFloat_fiftyfive : jsParseFloat "55" = some 55 := by
  have h : jsParseFloat "55" =
      some ((1 : ℚ) * (((55 : Nat) : ℚ) + ((0 : Nat) : ℚ) / (10 : ℚ) ^ (0 : Nat)) *
        (10 : ℚ) ^ (0 : Int)) := rfl
  rw [h]
  norm_num

lemma jsParseFloat_undefined : jsParseFloat "undefined" = none := rfl

lemma distinctUntilChangedStep_fst {α : Type} [DecidableEq α] (st : Option α × List α) (v : α) :
    (distinctUntilChangedStep st v).1 = some v := by
  unfold distinctUntilChangedStep
  by_cases h : st.1 = some v
  · simp [h]
  · simp [h]

lemma distinctUntilChangedStep_idem {α : Type} [DecidableEq α] (st : Option α × List α) (v : α) :
    distinctUntilChangedStep (distinctUntilChangedStep st v) v = distinctUntilChangedStep st v := by
  have h := distinctUntilChangedStep_fst st v
  conv_lhs => rw [distinctUntilChangedStep]
  rw [if_pos h]

lemma distinctFold_inv {α : Type} [DecidableEq α] (values : List α) :
    ∀ st : Option α × List α, st.2.getLast? = st.1 →
      List.Chain' (fun a b => a ≠ b) st.2 →
      (values.foldl distinctUntilChangedStep st).2.getLast? =
          (values.foldl distinctUntilChangedStep st).1 ∧
        List.Chain' (fun a b => a ≠ b) (values.foldl distinctUntilChangedStep st).2 := by
  induction values with
  | nil => exact fun st h1 h2 => ⟨h1, h2⟩
  | cons v vs ih =>
    intro st h1 h2
    rw [List.foldl_cons]
    by_cases h : st.1 = some v
    · exact ih _ (by simpa [distinctUntilChangedStep, h] using h1)
        (by simpa [distinctUntilChangedStep, h] using h2)
    · apply ih
      · simp [distinctUntilChangedStep, h, List.getLast?_concat]
      · simp only [distinctUntilChangedStep, if_neg h]
        rw [List.chain'_append]
        refine ⟨h2, List.chain'_singleton v, ?_⟩
        intro x hx y hy
        simp only [List.head?_cons, Option.mem_def, Option.some.injEq] at hy
        subst hy
        intro hxv
        subst hxv
        rw [Option.mem_def, h1] at hx
        exact h hx

lemma distinctUntilChangedRun_inv {α : Type} [DecidableEq α] (values : List α) :
    (distinctUntilChangedRun values).2.getLast? = (distinctUntilChangedRun values).1 ∧
      List.Chain' (fun a b => a ≠ b) (distinctUntilChangedRun values).2 :=
  distinctFold_inv values (none, []) rfl List.chain'_nil

lemma refreshAttempts_succ_lt (source : Nat → TimestampSample) (i fuel : Nat)
    (h : timestampAge (source i) < snapshotTimestampGracePeriod) :
    refreshAttempts source i (fuel + 1) = some (i + 1) := by
  simp [refreshAttempts, h]

lemma refreshAttempts_fresh_at (source : Nat → TimestampSample) :
    ∀ j i fuel : Nat, j < fuel →
      (∀ k, k < j → snapshotTimestampGracePeriod ≤ timestampAge (source (i + k))) →
      timestampAge (source (i + j)) < snapshotTimestampGracePeriod →
      refreshAttempts source i fuel = some (i + j + 1) := by
  intro j
  induction j with
  | zero =>
    intro i fuel hlt hstale hfresh
    obtain ⟨f, rfl⟩ := Nat.exists_eq_succ_of_ne_zero (Nat.pos_iff_ne_zero.mp hlt)
    have h0 : timestampAge (source i) < snapshotTimestampGracePeriod := by simpa using hfresh
    simpa using refreshAttempts_succ_lt source i f h0
  | succ n ih =>
    intro i fuel hlt hstale hfresh
    obtain ⟨f, rfl⟩ := Nat.exists_eq_succ_of_ne_zero
      (Nat.pos_iff_ne_zero.mp (Nat.lt_of_le_of_lt (Nat.zero_le (n + 1)) hlt))
    have h0 : snapshotTimestampGracePeriod ≤ timestampAge (source i) := by
      simpa using hstale 0 (Nat.succ_pos n)
    have hrec : refreshAttempts source (i + 1) f = some (i + 1 + n + 1) := by
      apply ih (i + 1) f (Nat.lt_of_succ_lt_succ hlt)
      · intro k hk
        have hsk := hstale (k + 1) (Nat.succ_lt_succ hk)
        simpa [show i + (k + 1) = i + 1 + k from by omega] using hsk
      · simpa [show i + (n + 1) = i + 1 + n from by omega] using hfresh
    simp only [refreshAttempts]
    rw [if_neg (Nat.not_lt.mpr h0), hrec]
    simp only [Option.some.injEq]
    omega

lemma refreshAttempts_stale (source : Nat → TimestampSample)
    (h : ∀ j, snapshotTimestampGracePeriod ≤ timestampAge (source j)) :
    ∀ fuel i : Nat, refreshAttempts source i fuel = none := by
  intro fuel
  induction fuel with
  | zero => intro i; rfl
  | succ n ih =>
    intro i
    simp [refreshAttempts, Nat.not_lt.mpr (h i), ih]

/-! ## Claim theorems -/

/-- C1: every run of the freshness loop samples once per attempt; whenever the
run reaches an attempt whose sample's age is under the 10000 ms grace period,
the loop terminates FRESH right there, after exactly that many attempts and
without further attempts — in particular a first sample within grace means
exactly one attempt — and if every sample is at least 10000 ms old a non-slow
device makes exactly its budgeted 60 attempts and then fails with an error
carrying that count. -/
theorem C1_freshness_loop (hasSlow allowStale : Bool) (source : Nat → TimestampSample) :
    (∀ j, j < maxSnapshotRefreshAttempts hasSlow allowStale →
      (∀ i, i < j → snapshotTimestampGracePeriod ≤ timestampAge (source i)) →
      timestampAge (source j) < snapshotTimestampGracePeriod →
      refreshSnapshot hasSlow allowStale source = .ok (j + 1)) ∧
    (timestampAge (source 0) < snapshotTimestampGracePeriod →
      refreshSnapshot hasSlow allowStale source = .ok 1) ∧
    ((∀ i, snapshotTimestampGracePeriod ≤ timestampAge (source i)) →
      refreshSnapshot false allowStale source = .error 60) := by
  have hgen : ∀ j, j < maxSnapshotRefreshAttempts hasSlow allowStale →
      (∀ i, i < j → snapshotTimestampGracePeriod ≤ timestampAge (source i)) →
      timestampAge (source j) < snapshotTimestampGracePeriod →
      refreshSnapshot hasSlow allowStale source = .ok (j + 1) := by
    intro j hj hstale hfresh
    have hsome : refreshAttempts source 0 (maxSnapshotRefreshAttempts hasSlow allowStale) =
        some (j + 1) := by
      have hat := refreshAttempts_fresh_at source j 0
        (maxSnapshotRefreshAttempts hasSlow allowStale) hj
        (fun k hk => by simpa using hstale k hk) (by simpa using hfresh)
      simpa using hat
    simp [refreshSnapshot, hsome]
  refine ⟨hgen, ?_, ?_⟩
  · intro h
    have hpos : 0 < maxSnapshotRefreshAttempts hasSlow allowStale := by
      cases hasSlow <;> cases allowStale <;> decide
    simpa using hgen 0 hpos (fun i hi => absurd hi (Nat.not_lt_zero i)) h
  · intro h
    have hnone := refreshAttempts_stale source h
    have h60 : maxSnapshotRefreshAttempts false allowStale = 60 := by
      cases allowStale <;> decide
    simp [refreshSnapshot, hnone, h60]

/-- Witness for C1: a run whose attempts 0-2 are 20000 ms stale and whose
attempt 3 has age 9999 terminates FRESH after exactly 4 attempts; a first
sample of capture 100 and response 10099 (age 9999) is FRESH after one attempt;
a source that is always 20000 ms stale exhausts the 60-attempt budget of a
non-slow device. -/
theorem C1_freshness_loop_witness :
    refreshSnapshot false false
        (fun i => if i < 3 then ⟨0, 20000⟩ else ⟨100, 10099⟩) = .ok 4 ∧
    refreshSnapshot false false (fun _ => ⟨100, 10099⟩) = .ok 1 ∧
    refreshSnapshot false false (fun _ => ⟨0, 20000⟩) = .error 60 :=
  ⟨(C1_freshness_loop false false
      (fun i => if i < 3 then ⟨0, 20000⟩ else ⟨100, 10099⟩)).1 3 (by decide)
      (by decide) (by decide),
   (C1_freshness_loop false false (fun _ => ⟨100, 10099⟩)).2.1 (by decide),
   (C1_freshness_loop false false (fun _ => ⟨0, 20000⟩)).2.2 (fun i => by decide)⟩

/-- C2: the poll interval and attempt budget are selected exactly by device
profile and caller tolerance: slow device and caller not tolerating staleness
gives 2000 ms and 300 attempts; slow device with staleness tolerated gives
500 ms and 10 attempts; every other device gives 500 ms and 60 attempts. -/
theorem C2_refresh_parameters :
    (snapshotRefreshDelay true false = 2000 ∧ maxSnapshotRefreshAttempts true false = 300) ∧
    (snapshotRefreshDelay true true = 500 ∧ maxSnapshotRefreshAttempts true true = 10) ∧
    (∀ allowStale, snapshotRefreshDelay false allowStale = 500 ∧
      maxSnapshotRefreshAttempts false allowStale = 60) := by
  refine ⟨⟨rfl, by decide⟩, ⟨rfl, by decide⟩, fun allowStale => ?_⟩
  cases allowStale <;> exact ⟨rfl, by decide⟩

/-- C3: a `getSnapshot` call arriving while session `s` is in flight awaits
that same session, starts no new retry loop and leaves the slot unchanged; a
caller resuming after resolution clears the slot, and the next call on the
cleared slot starts a fresh session. -/
theorem C3_session_coalescing (s freshId nextFresh : Nat) :
    acquireRefreshSession (some s) freshId = (s, some s, false) ∧
    clearRefreshSession (some s) = none ∧
    acquireRefreshSession (clearRefreshSession (some s)) nextFresh =
      (nextFresh, some nextFresh, true) :=
  ⟨rfl, rfl, rfl⟩

/-- C4: whatever the refresh session resolved with (fresh, exhausted, or a
transport error inside the session), `getSnapshot` returns the image-fetch
response, issues exactly the image-fetch request, and the session failure shows
up only in the error log. -/
theorem C4_refresh_soft_failure (id : Nat) (outcome : SessionOutcome)
    (transport : Request → Except String (List Nat)) :
    (getSnapshotFinish id outcome transport).result = transport (snapshotImageRequest id) ∧
    (getSnapshotFinish id outcome transport).requests = [snapshotImageRequest id] ∧
    ∀ e, (getSnapshotFinish id outcome transport).loggedErrors = [e] ↔
      sessionError outcome = some e := by
  refine ⟨?_, ?_, ?_⟩
  · cases outcome <;> rfl
  · cases outcome <;> rfl
  · intro e
    cases outcome <;> simp [getSnapshotFinish, sessionError]

/-- C5: recording a ding schedules a removal of exactly that event 65 seconds
later on its own timer (all other timers untouched); when a timer fires,
removal is by identity — an active event survives exactly when it is not the
timer's event, a fire for an event no longer present leaves the state
unchanged, and if no qualifying event remains afterwards the motion projection
recomputes to false. -/
theorem C5_ding_timer_expiry (s : DingState) (ding : ActiveDing) (dingId : Nat) :
    (processActiveDing s ding).timers = s.timers ++ [(s.now + 65 * 1000, ding.id)] ∧
    (∀ e ∈ s.activeDings, e ∈ (fireDingTimer s dingId).activeDings ↔ e.id ≠ dingId) ∧
    ((∀ e ∈ s.activeDings, e.id ≠ dingId) → fireDingTimer s dingId = s) ∧
    ((∀ e ∈ s.activeDings, e.id = dingId ∨ (e.motion = false ∧ e.kind ≠ DingKind.motion)) →
      motionFromDings (fireDingTimer s dingId).activeDings = false) := by
  refine ⟨rfl, ?_, ?_, ?_⟩
  · intro e he
    simp [fireDingTimer, List.mem_filter, he, bne_iff_ne]
  · intro h
    have hfilter : s.activeDings.filter (fun oldDing => oldDing.id != dingId) = s.activeDings :=
      List.filter_eq_self.mpr (fun a ha => by simpa [bne_iff_ne] using h a ha)
    simp [fireDingTimer, hfilter]
  · intro h
    simp only [fireDingTimer, motionFromDings]
    rw [List.any_eq_false]
    intro d hd
    rw [List.mem_filter, bne_iff_ne] at hd
    rcases h d hd.1 with hid | ⟨hm, hk⟩
    · exact absurd hid hd.2
    · simp [hm, hk]

/-- Witness for C5: on a state holding only the non-motion event with identity
2, recording event 3 schedules its removal at 65000 ms, firing the timer for
the absent identity 1 is a no-op, and the motion projection is false after. -/
theorem C5_ding_timer_expiry_witness :
    (processActiveDing (⟨0, [⟨2, .ding, false⟩], [], []⟩ : DingState) ⟨3, .ding, false⟩).timers =
      [(65000, 3)] ∧
    fireDingTimer (⟨0, [⟨2, .ding, false⟩], [], []⟩ : DingState) 1 =
      (⟨0, [⟨2, .ding, false⟩], [], []⟩ : DingState) ∧
    motionFromDings
      (fireDingTimer (⟨0, [⟨2, .ding, false⟩], [], []⟩ : DingState) 1).activeDings = false :=
  ⟨by simpa using
      (C5_ding_timer_expiry ⟨0, [⟨2, .ding, false⟩], [], []⟩ ⟨3, .ding, false⟩ 1).1,
   (C5_ding_timer_expiry ⟨0, [⟨2, .ding, false⟩], [], []⟩ ⟨3, .ding, false⟩ 1).2.2.1 (by decide),
   (C5_ding_timer_expiry ⟨0, [⟨2, .ding, false⟩], [], []⟩ ⟨3, .ding, false⟩ 1).2.2.2 (by decide)⟩

/-- C6: the motion channel is a pure projection of the active-set history: it
computes true exactly when some active event has its motion flag set or has
kind motion (kind alone qualifies), consecutive equal booleans are suppressed,
and the replay-one value handed to a late subscriber is the last emission. -/
theorem C6_motion_channel (snapshots : List (List ActiveDing)) :
    (∀ dings, motionFromDings dings = true ↔
      ∃ d ∈ dings, d.motion = true ∨ d.kind = DingKind.motion) ∧
    List.Chain' (fun a b => a ≠ b) (motionPipeline snapshots).2 ∧
    (motionPipeline snapshots).1 = (motionPipeline snapshots).2.getLast? := by
  refine ⟨?_, ?_, ?_⟩
  · intro dings
    simp [motionFromDings, List.any_eq_true]
  · simpa [motionPipeline] using
      (distinctUntilChangedRun_inv (snapshots.map motionFromDings)).2
  · simpa [motionPipeline] using
      (distinctUntilChangedRun_inv (snapshots.map motionFromDings)).1.symm

/-- C7: the battery mapper yields 55 for the number 55 and the text "55",
absent for the text "abc" and for an absent field, and in general yields
absent exactly when the raw field is neither a number nor numeric-parseable
text. -/
theorem C7_battery_level_mapper (base : CameraData) :
    getBatteryLevel { base with battery_life := .num 55 } = some 55 ∧
    getBatteryLevel { base with battery_life := .str "55" } = some 55 ∧
    getBatteryLevel { base with battery_life := .str "abc" } = none ∧
    getBatteryLevel { base with battery_life := .undef } = none ∧
    ∀ data : CameraData, getBatteryLevel data = none ↔
      isNumberValue data.battery_life = false ∧ numericParseableText data.battery_life = false := by
  refine ⟨rfl, jsParseFloat_fiftyfive, rfl, rfl, ?_⟩
  intro data
  rcases hbl : data.battery_life with v | t | _
  · simp [getBatteryLevel, hbl, isNumberValue, numericParseableText]
  · simp only [getBatteryLevel, hbl, isNumberValue, numericParseableText]
    cases h : jsParseFloat t <;> simp [h]
  · simp [getBatteryLevel, hbl, isNumberValue, numericParseableText, jsParseFloat_undefined]

/-- C8: over any update history, the battery channel never emits two equal
consecutive values, and two consecutive updates whose raw fields parse to the
same derived value produce no second emission: the pipeline state is unchanged
by the second update. -/
theorem C8_battery_dedup (initial : CameraData) (updates : List CameraData) (u1 u2 : CameraData)
    (h : getBatteryLevel u1 = getBatteryLevel u2) :
    List.Chain' (fun a b => a ≠ b) (batteryPipeline initial updates).2 ∧
    batteryPipeline initial (updates ++ [u1, u2]) = batteryPipeline initial (updates ++ [u1]) := by
  constructor
  · simpa [batteryPipeline] using
      (distinctUntilChangedRun_inv ((initial :: updates).map getBatteryLevel)).2
  · simp only [batteryPipeline, distinctUntilChangedRun]
    have e2 : initial :: (updates ++ [u1, u2]) = (initial :: updates) ++ [u1, u2] := rfl
    have e1 : initial :: (updates ++ [u1]) = (initial :: updates) ++ [u1] := rfl
    rw [e2, e1, List.map_append, List.map_append, List.foldl_append, List.foldl_append]
    simp only [List.map_cons, List.map_nil, List.foldl_cons, List.foldl_nil]
    rw [← h]
    exact distinctUntilChangedStep_idem _ _

/-- Witness for C8: a record whose battery field is the text "55" followed by
one whose field is the number 55 adds no second emission. -/
theorem C8_battery_dedup_witness :
    List.Chain' (fun a b => a ≠ b)
      (batteryPipeline (⟨0, "k", "d", .undef, none, none⟩ : CameraData) []).2 ∧
    batteryPipeline (⟨0, "k", "d", .undef, none, none⟩ : CameraData)
        ([] ++ [(⟨0, "k", "d", .str "55", none, none⟩ : CameraData),
          (⟨0, "k", "d", .num 55, none, none⟩ : CameraData)]) =
      batteryPipeline (⟨0, "k", "d", .undef, none, none⟩ : CameraData)
        ([] ++ [(⟨0, "k", "d", .str "55", none, none⟩ : CameraData)]) :=
  C8_battery_dedup ⟨0, "k", "d", .undef, none, none⟩ []
    ⟨0, "k", "d", .str "55", none, none⟩ ⟨0, "k", "d", .num 55, none, none⟩
    jsParseFloat_fiftyfive

/-- C9: on a camera without the light capability `setLight` returns false,
issues no transport call and leaves the record unaltered, and likewise
`setSiren` on a camera without the siren capability. -/
theorem C9_capability_gate (cam : RingCamera) (turnOn : Bool)
    (transport : Request → Except String Unit) :
    (cam.hasLight = false →
      setLight cam turnOn transport =
        { result := .ok false, camera := cam, transportCalls := [] }) ∧
    (cam.hasSiren = false →
      setSiren cam turnOn transport =
        { result := .ok false, camera := cam, transportCalls := [] }) := by
  constructor
  · intro h
    simp [setLight, h]
  · intro h
    simp [setSiren, h]

/-- Witness for C9: a camera created from a record with neither optional status
field rejects both commands without transport calls or record changes. -/
theorem C9_capability_gate_witness :
    setLight (RingCamera.create ⟨7, "k", "d", .undef, none, none⟩) true
        (fun _ => .ok ()) =
      { result := .ok false, camera := RingCamera.create ⟨7, "k", "d", .undef, none, none⟩,
        transportCalls := [] } ∧
    setSiren (RingCamera.create ⟨7, "k", "d", .undef, none, none⟩) true
        (fun _ => .ok ()) =
      { result := .ok false, camera := RingCamera.create ⟨7, "k", "d", .undef, none, none⟩,
        transportCalls := [] } :=
  ⟨(C9_capability_gate (RingCamera.create ⟨7, "k", "d", .undef, none, none⟩) true
      (fun _ => .ok ())).1 (by decide),
   (C9_capability_gate (RingCamera.create ⟨7, "k", "d", .undef, none, none⟩) true
      (fun _ => .ok ())).2 (by decide)⟩

/-- C10: when the transport rejects, `setLight` and `setSiren` propagate the
rejection and leave the current record unchanged, since the optimistic update
runs only after the transport call succeeds. -/
theorem C10_transport_atomicity (cam : RingCamera) (turnOn : Bool)
    (transport : Request → Except String Unit) (e : String)
    (hf : ∀ req, transport req = .error e) :
    (setLight cam turnOn transport).camera = cam ∧
    (cam.hasLight = true → (setLight cam turnOn transport).result = .error e) ∧
    (setSiren cam turnOn transport).camera = cam ∧
    (cam.hasSiren = true → (setSiren cam turnOn transport).result = .error e) := by
  refine ⟨?_, ?_, ?_, ?_⟩
  · cases hL : cam.hasLight
    · simp [setLight, hL]
    · simp [setLight, hL, hf]
  · intro hL
    simp [setLight, hL, hf]
  · cases hS : cam.hasSiren
    · simp [setSiren, hS]
    · simp [setSiren, hS, hf]
  · intro hS
    simp [setSiren, hS, hf]

/-- Witness for C10: a fully capable camera against a transport that always
rejects keeps its record and surfaces the rejection from both commands. -/
theorem C10_transport_atomicity_witness :
    (setLight (RingCamera.create ⟨7, "k", "d", .undef, some "off", some ⟨0⟩⟩) true
        (fun _ => .error "network down")).camera =
      RingCamera.create ⟨7, "k", "d", .undef, some "off", some ⟨0⟩⟩ ∧
    (setLight (RingCamera.create ⟨7, "k", "d", .undef, some "off", some ⟨0⟩⟩) true
        (fun _ => .error "network down")).result = .error "network down" ∧
    (setSiren (RingCamera.create ⟨7, "k", "d", .undef, some "off", some ⟨0⟩⟩) true
        (fun _ => .error "network down")).camera =
      RingCamera.create ⟨7, "k", "d", .undef, some "off", some ⟨0⟩⟩ ∧
    (setSiren (RingCamera.create ⟨7, "k", "d", .undef, some "off", some ⟨0⟩⟩) true
        (fun _ => .error "network down")).result = .error "network down" :=
  ⟨(C10_transport_atomicity (RingCamera.create ⟨7, "k", "d", .undef, some "off", some ⟨0⟩⟩)
      true (fun _ => .error "network down") "network down" (fun _ => rfl)).1,
   (C10_transport_atomicity (RingCamera.create ⟨7, "k", "d", .undef, some "off", some ⟨0⟩⟩)
      true (fun _ => .error "network down") "network down" (fun _ => rfl)).2.1 (by decide),
   (C10_transport_atomicity (RingCamera.create ⟨7, "k", "d", .undef, some "off", some ⟨0⟩⟩)
      true (fun _ => .error "network down") "network down" (fun _ => rfl)).2.2.1,
   (C10_transport_atomicity (RingCamera.create ⟨7, "k", "d", .undef, some "off", some ⟨0⟩⟩)
      true (fun _ => .error "network down") "network down" (fun _ => rfl)).2.2.2 (by decide)⟩

end RingCameraModel
